import Mathlib

set_option maxHeartbeats 1000000

/-! Shallow embedding of the devops_ai_agent repository (src/tools.py and
src/main.py).  Python strings are Lean strings; the Python string
primitives used by the code (substring containment, lower, strip,
splitlines, startswith, endswith, "\n".join, the `or` fallback idiom) are
re-implemented over exploded character lists so that every definition
reduces inside the kernel.  External effects (the LLM network calls, the
Python ast/yaml/json parsers, re.findall over the secret patterns) are
modelled as explicit oracle parameters or record fields, noted at each
definition. -/

/-- Prefix test on character lists (Python str.startswith on exploded strings). -/
def startsWithL : List Char → List Char → Bool
  | [], _ => true
  | _ :: _, [] => false
  | p :: ps, c :: cs => p == c && startsWithL ps cs

/-- Contiguous-substring occurrence test on character lists. -/
def hasSubL (pat : List Char) : List Char → Bool
  | [] => startsWithL pat []
  | c :: cs => startsWithL pat (c :: cs) || hasSubL pat cs

/-- Python substring containment, `pat in s`. -/
def pyContains (pat s : String) : Bool := hasSubL pat.data s.data

/-- Python str.startswith. -/
def pyStartsWith (s pre : String) : Bool := startsWithL pre.data s.data

/-- Python str.endswith. -/
def pyEndsWith (s suf : String) : Bool := startsWithL suf.data.reverse s.data.reverse

/-- Python str.lower, adequate for the ASCII markers these tools look for. -/
def pyLower (s : String) : String := String.mk (s.data.map Char.toLower)

/-- Whitespace characters recognised by Python str.strip / str.isspace
(ASCII whitespace plus the common one-byte Unicode spaces). -/
def isPySpace (c : Char) : Bool :=
  c == ' ' || c == '\t' || c == '\n' || c == '\r' || c == '\x0b' || c == '\x0c' ||
  c == '\x1c' || c == '\x1d' || c == '\x1e' || c == '\x1f' || c == '\x85' || c == '\xa0'

/-- Strip leading and trailing whitespace from a character list. -/
def stripL (xs : List Char) : List Char :=
  ((xs.dropWhile isPySpace).reverse.dropWhile isPySpace).reverse

/-- Python str.strip(). -/
def pyStrip (s : String) : String := String.mk (stripL s.data)

/-- Line-break characters recognised by Python str.splitlines (besides the
two-character sequence CR LF, handled separately). -/
def isLineBreak (c : Char) : Bool :=
  c == '\n' || c == '\r' || c == '\x0b' || c == '\x0c' ||
  c == '\x1c' || c == '\x1d' || c == '\x1e' || c == '\x85' ||
  c == '\u2028' || c == '\u2029'

/-- Worker for pySplitlines; the accumulator holds the current line reversed. -/
def splitlinesL (acc : List Char) : List Char → List String
  | [] => if acc.isEmpty then [] else [String.mk acc.reverse]
  | '\r' :: '\n' :: rest => String.mk acc.reverse :: splitlinesL [] rest
  | c :: rest =>
    if isLineBreak c then String.mk acc.reverse :: splitlinesL [] rest
    else splitlinesL (c :: acc) rest

/-- Python str.splitlines(): split at line boundaries, with no trailing empty
line for a trailing line break. -/
def pySplitlines (s : String) : List String := splitlinesL [] s.data

/-- Python `x or y` on strings: the fallback y is taken exactly when x is empty. -/
def pyOr (x y : String) : String := if x = "" then y else x

/-- Python "\n".join. -/
def joinNL : List String → String
  | [] => ""
  | [x] => x
  | x :: rest => x ++ "\n" ++ joinNL rest

/-- Python os.path.join for the forward-slash paths these tools build. -/
def pyJoin (a b : String) : String := a ++ "/" ++ b

/-- A Python value as it appears in the result mappings of this program:
either a plain string or a string-keyed dictionary (insertion ordered). -/
inductive Value where
  | str : String → Value
  | dict : List (String × Value) → Value
deriving Inhabited

/-- Whether a Value is a plain string. -/
def Value.isStr : Value → Bool
  | .str _ => true
  | .dict _ => false

mutual
/-- The string a Value contributes when interpolated into an f-string:
strings stand for themselves, dictionaries for their repr. -/
def pyStr : Value → String
  | .str s => s
  | .dict es => "\x7b" ++ pyReprEntries es ++ "\x7d"
/-- Python repr of a Value (quote escaping inside strings is not modelled). -/
def pyRepr : Value → String
  | .str s => "\x27" ++ s ++ "\x27"
  | .dict es => "\x7b" ++ pyReprEntries es ++ "\x7d"
def pyReprEntries : List (String × Value) → String
  | [] => ""
  | [(k, v)] => "\x27" ++ k ++ "\x27: " ++ pyRepr v
  | (k, v) :: e :: rest => "\x27" ++ k ++ "\x27: " ++ pyRepr v ++ ", " ++ pyReprEntries (e :: rest)
end

/-! LLM layer (src/tools.py lines 17 to 56).  A chat-model response object
and a provider client are external collaborators: the response carries
optional attributes because llm_predict probes them with hasattr/getattr,
and invoke models the network round trip, either raising (Except.error
with the exception text) or returning a response object. -/

/-- A LangChain chat-model response object as llm_predict consumes it. -/
structure PyObj where
  content : Option String
  response_metadata : Option Value
  usage_metadata : Option Value
  strRepr : String

/-- An LLM provider client (ChatOpenAI or ChatOllama instance). -/
structure Client where
  invoke : String → Except String PyObj

/-- Python truthiness of an optional environment string. -/
def pyTruthy : Option String → Bool
  | none => false
  | some s => s != ""

/-- The OPENAI_API_KEY guard in get_llm: key truthy and not the placeholder. -/
def keyUsable : Option String → Bool
  | none => false
  | some k => (k != "") && !(pyStartsWith k "your_ope")

/-- get_llm from src/tools.py: try to construct the OpenAI client when the
key is usable, else or on constructor failure try the Ollama client when the
base URL is truthy, else None.  The two constructor outcomes are oracle
parameters (mkOpenAI, mkOllama) for the external ChatOpenAI / ChatOllama
constructor calls, Except.error meaning the constructor raised. -/
def get_llm (key url : Option String) (mkOpenAI mkOllama : Except String Client) :
    Option Client :=
  let viaOllama : Option Client :=
    if pyTruthy url then
      match mkOllama with
      | .ok c => some c
      | .error _ => none
    else none
  if keyUsable key then
    match mkOpenAI with
    | .ok c => some c
    | .error _ => viaOllama
  else viaOllama

/-- llm_predict from src/tools.py: with a client, invoke it and wrap the
response into a dict with keys content, response_metadata, usage_metadata;
an invoke exception is caught and reported as an "LLM failed: ..." content;
with no client the fixed "No LLM available." dict is returned. -/
def llm_predict (llm : Option Client) (prompt : String) : List (String × Value) :=
  match llm with
  | some c =>
    match c.invoke prompt with
    | .ok r =>
      [("content", .str (match r.content with | some s => s | none => r.strRepr)),
       ("response_metadata", (r.response_metadata).getD (.dict [])),
       ("usage_metadata", (r.usage_metadata).getD (.dict []))]
    | .error e =>
      [("content", .str ("LLM failed: " ++ e)),
       ("response_metadata", .dict []),
       ("usage_metadata", .dict [])]
  | none =>
    [("content", .str "No LLM available."),
     ("response_metadata", .dict []),
     ("usage_metadata", .dict [])]

/-! Log-text tools (src/tools.py lines 59 to 132). -/

/-- check_build_status from src/tools.py. -/
def check_build_status (log : String) : String :=
  if ["BUILD FAILURE", "FAILURE", "Error:", "Exception", "Traceback"].any
      (fun k => pyContains k log)
  then "Build failed." else "Build passed."

/-- extract_error_lines from src/tools.py. -/
def extract_error_lines (log : String) : String :=
  pyOr (joinNL ((pySplitlines log).filter (fun l =>
    pyContains "error" (pyLower l) || pyContains "exception" (pyLower l))))
    "No errors found."

/-- suggest_fixes from src/tools.py: one delegated llm_predict call. -/
def suggest_fixes (llm : Option Client) (errors : String) : List (String × Value) :=
  llm_predict llm ("Suggest fixes for the following Jenkins build errors:\n" ++ errors)

/-- explain_yml from src/tools.py. -/
def explain_yml (llm : Option Client) (content : String) : List (String × Value) :=
  llm_predict llm ("Explain this Jenkins pipeline YAML file:\n" ++ content)

/-- check_tf_issues from src/tools.py. -/
def check_tf_issues (llm : Option Client) (tf_file : String) : List (String × Value) :=
  llm_predict llm ("Check for misconfigurations in this Terraform file:\n" ++ tf_file)

/-- generate_pr_text from src/tools.py. -/
def generate_pr_text (llm : Option Client) (fix_summary : String) : List (String × Value) :=
  llm_predict llm ("Create a GitHub PR title and body for the following fix:\n" ++ fix_summary)

/-- summarize_log from src/tools.py. -/
def summarize_log (llm : Option Client) (log : String) : List (String × Value) :=
  llm_predict llm ("Summarize this Jenkins log:\n" ++ log)

/-- Characters of the regex class for group 3 of the slow-test pattern. -/
def isWordDotC (c : Char) : Bool := c.isAlphanum || c == '_' || c == '.'

/-- Digit run to a natural number. -/
def digitsToNat (ds : List Char) : Nat :=
  ds.foldl (fun acc c => acc * 10 + (c.toNat - 48)) 0

/-- Match the detect_slow_tests regex anchored at the start of the list;
returns (integer digits, fraction digits, group-3 characters).  Greedy
left-to-right matching without backtracking is equivalent for this pattern
because a shorter digit run always leaves a digit where the pattern needs
a dot or an s. -/
def matchSlowAt (cs : List Char) : Option (List Char × List Char × List Char) :=
  let ds := cs.takeWhile Char.isDigit
  if ds.isEmpty then none else
  let r1 := cs.dropWhile Char.isDigit
  let fr : List Char × List Char :=
    match r1 with
    | '.' :: r =>
      let fs := r.takeWhile Char.isDigit
      if fs.isEmpty then ([], r1) else (fs, r.dropWhile Char.isDigit)
    | _ => ([], r1)
  match fr.2 with
  | 's' :: r3 =>
    if (r3.takeWhile isPySpace).isEmpty then none else
    match r3.dropWhile isPySpace with
    | '-' :: '>' :: r4 =>
      if (r4.takeWhile isPySpace).isEmpty then none else
      let r5 := r4.dropWhile isPySpace
      let g3 := r5.takeWhile isWordDotC
      if g3.isEmpty then none else some (ds, fr.1, g3)
    | _ => none
  | _ => none

/-- re.search for the slow-test pattern: leftmost match over all start
positions. -/
def reSearchSlow : List Char → Option (List Char × List Char × List Char)
  | [] => none
  | c :: cs =>
    match matchSlowAt (c :: cs) with
    | some m => some m
    | none => reSearchSlow cs

/-- Exact decimal comparison modelling float(group 1) greater than 5.0
(double rounding at extreme precision is not modelled). -/
def gtFive (ds fs : List Char) : Bool :=
  decide (5 < digitsToNat ds) ||
    ((digitsToNat ds == 5) && fs.any (fun c => c != '0'))

/-- The text of regex group 1: integer digits plus the fraction when the
optional group matched. -/
def group1Str (ds fs : List Char) : String :=
  String.mk ds ++ (if fs.isEmpty then "" else "." ++ String.mk fs)

/-- detect_slow_tests from src/tools.py. -/
def detect_slow_tests (log : String) : String :=
  pyOr (joinNL ((pySplitlines log).filterMap (fun line =>
    match reSearchSlow line.data with
    | some (ds, fs, g3) =>
      if gtFive ds fs then
        some ("Slow test: " ++ String.mk g3 ++ " took " ++ group1Str ds fs ++ "s")
      else none
    | none => none))) "No slow tests found."

/-- The capture loop of extract_failed_tests: a marker line switches capture
on (and is itself never appended), an empty-after-strip line while capturing
stops the loop, any other line while capturing is appended stripped. -/
def collectFailed : Bool → List String → List String
  | _, [] => []
  | capture, l :: rest =>
    if pyContains "Failed tests:" l then collectFailed true rest
    else if capture && (pyStrip l == "") then []
    else if capture then pyStrip l :: collectFailed capture rest
    else collectFailed capture rest

/-- extract_failed_tests from src/tools.py. -/
def extract_failed_tests (log : String) : String :=
  pyOr (joinNL (collectFailed false (pySplitlines log))) "No failed tests found."

/-- detect_deprecated_warnings from src/tools.py. -/
def detect_deprecated_warnings (log : String) : String :=
  pyOr (joinNL ((pySplitlines log).filter (fun l =>
    pyContains "deprecated" (pyLower l)))) "No deprecated warnings found."


/-! Filesystem model for the directory-scan tools (src/tools.py lines 136
to 268).  A file records the outcomes of the operations the tools perform
on it: opening can raise (openError), strict utf-8 decoding can raise
(decodeError), and the external ast/yaml/json parsers are oracles attached
per file (their outcome is a function of the content, which the embedding
does not parse).  decoded is the text as decoded with errors ignored; when
no decode error occurs the strict decode yields the same text. -/

structure PyFile where
  openError : Option String
  decodeError : Option String
  decoded : String
  astError : Option String
  yamlError : Option String
  jsonError : Option String
  jsonDeps : List (String × String)

/-- Reading a file opened with encoding utf-8 (strict): an open or decode
failure raises. -/
def PyFile.readStrict (f : PyFile) : Except String String :=
  match f.openError with
  | some e => .error e
  | none =>
    match f.decodeError with
    | some e => .error e
    | none => .ok f.decoded

/-- Reading a file opened with encoding utf-8 and errors ignore: only an
open failure raises. -/
def PyFile.readIgnore (f : PyFile) : Except String String :=
  match f.openError with
  | some e => .error e
  | none => .ok f.decoded

/-- A directory tree: its name (as seen from the parent), its files in
listing order, and its subdirectories in listing order. -/
inductive Dir where
  | mk : String → List (String × PyFile) → List Dir → Dir

/-- Name of a directory. -/
def Dir.name : Dir → String
  | .mk n _ _ => n

/-- Files of a directory. -/
def Dir.files : Dir → List (String × PyFile)
  | .mk _ fs _ => fs

/-- Subdirectories of a directory. -/
def Dir.subs : Dir → List Dir
  | .mk _ _ ds => ds

/-- The EXCLUDED_DIRS set of src/tools.py. -/
def EXCLUDED_DIRS : List String := [".git", "__pycache__", "venv", ".venv", "node_modules"]

mutual
/-- os.walk flattened to the (dirpath, filename, file) visit order of the
nested loops the tools run: top-down, files of a directory in listing order,
then each subdirectory in listing order. -/
def walkFiles (p : String) : Dir → List (String × String × PyFile)
  | .mk _ fs subs => (fs.map (fun nf => (p, nf.1, nf.2))) ++ walkFilesList p subs
/-- Worker over a subdirectory list. -/
def walkFilesList (p : String) : List Dir → List (String × String × PyFile)
  | [] => []
  | d :: rest => walkFiles (pyJoin p d.name) d ++ walkFilesList p rest
end

mutual
/-- os.walk with the in-place pruning of EXCLUDED_DIRS from dirnames, as
scan_for_secrets and run_static_analysis perform it: excluded subtrees are
never descended into. -/
def walkFilesPruned (p : String) : Dir → List (String × String × PyFile)
  | .mk _ fs subs => (fs.map (fun nf => (p, nf.1, nf.2))) ++ walkFilesPrunedList p subs
/-- Worker over a subdirectory list, skipping excluded names. -/
def walkFilesPrunedList (p : String) : List Dir → List (String × String × PyFile)
  | [] => []
  | d :: rest =>
    (if EXCLUDED_DIRS.contains d.name then []
     else walkFilesPruned (pyJoin p d.name) d) ++ walkFilesPrunedList p rest
end

mutual
/-- The tree with every subdirectory whose name is in EXCLUDED_DIRS removed,
recursively. -/
def pruneExcluded : Dir → Dir
  | .mk n fs subs => .mk n fs (pruneExcludedList subs)
/-- Worker over a subdirectory list. -/
def pruneExcludedList : List Dir → List Dir
  | [] => []
  | d :: rest =>
    (if EXCLUDED_DIRS.contains d.name then [] else [pruneExcluded d]) ++
      pruneExcludedList rest
end

/-- Loop body sequence of lint_python_files: only SyntaxError (the astError
oracle) is caught, so an open or strict-decode failure raises out of the
tool. -/
def lintGo : List (String × String × PyFile) → Except String (List String)
  | [] => .ok []
  | (_, fname, f) :: rest =>
    if pyEndsWith fname ".py" then
      match f.readStrict with
      | .error e => .error e
      | .ok _ =>
        match f.astError with
        | some e => do
          let es ← lintGo rest
          return (fname ++ ": " ++ e) :: es
        | none => lintGo rest
    else lintGo rest

/-- lint_python_files from src/tools.py: unpruned walk, .py files only,
a caught SyntaxError is appended as a finding. -/
def lint_python_files (root_dir : String) (d : Dir) : Except String String :=
  (lintGo (walkFiles root_dir d)).map
    (fun es => pyOr (joinNL es) "No Python syntax errors found.")

/-- Loop body sequence of check_dockerfile_security: no exception handling
at all, so any open or decode failure raises out of the tool. -/
def dockerGo : List (String × String × PyFile) → Except String (List String)
  | [] => .ok []
  | (_, fname, f) :: rest =>
    if pyLower fname == "dockerfile" then
      match f.readStrict with
      | .error e => .error e
      | .ok content => do
        let c := pyLower content
        let es ← dockerGo rest
        return ((if pyContains "latest" c then [fname ++ ": Avoid using \x27latest\x27 tag."] else []) ++
          (if pyContains "add " c then [fname ++ ": Use COPY instead of ADD."] else []) ++
          (if pyContains "apt-get install" c && !(pyContains "--no-install-recommends" c) then
            [fname ++ ": Use \x27--no-install-recommends\x27."] else []) ++ es)
    else dockerGo rest

/-- check_dockerfile_security from src/tools.py. -/
def check_dockerfile_security (root_dir : String) (d : Dir) : Except String String :=
  (dockerGo (walkFiles root_dir d)).map
    (fun es => pyOr (joinNL es) "No Dockerfile issues found.")

/-- Extensions scanned by scan_for_secrets. -/
def secretExts : List String := [".py", ".env", ".yml", ".yaml", ".json", ".js"]

/-- Loop body sequence of scan_for_secrets: findall is an oracle for
re.findall over the four secret patterns (a function of the file content);
any per-file failure is caught and appended as a finding, so the loop is
total. -/
def secretsGo (findall : String → List String) :
    List (String × String × PyFile) → List String
  | [] => []
  | (dp, fname, f) :: rest =>
    if secretExts.any (fun e => pyEndsWith fname e) then
      (match f.readIgnore with
       | .ok content => (findall content).map (fun m => pyJoin dp fname ++ ": " ++ m)
       | .error e => [pyJoin dp fname ++ ": Error reading file - " ++ e]) ++
        secretsGo findall rest
    else secretsGo findall rest

/-- scan_for_secrets from src/tools.py: pruned walk, fixed extension list,
per-file errors caught and reported as findings. -/
def scan_for_secrets (findall : String → List String) (root_dir : String) (d : Dir) :
    String :=
  pyOr (joinNL (secretsGo findall (walkFilesPruned root_dir d))) "No secrets found."

/-- One requirements.txt line check of check_dependency_vulnerabilities. -/
def reqLineFinding (line : String) : Option String :=
  if pyContains "==" line && pyContains "0.0.0" line then
    some (pyStrip line ++ " looks insecure")
  else none

/-- Walk-entry loop of check_dependency_vulnerabilities over (dirpath,
files-of-that-directory) entries: requirements.txt is read line by line with
no exception handling, package.json is parsed by the json oracle with no
exception handling, so any open, decode or parse failure raises. -/
def depsGo : List (String × List (String × PyFile)) → Except String (List String)
  | [] => .ok []
  | (_, fs) :: rest => do
    let reqs ← match fs.lookup "requirements.txt" with
      | some f =>
        match f.readStrict with
        | .error e => Except.error e
        | .ok content => Except.ok ((pySplitlines content).filterMap reqLineFinding)
      | none => Except.ok []
    let pkgs ← match fs.lookup "package.json" with
      | some f =>
        match f.readStrict with
        | .error e => Except.error e
        | .ok _ =>
          match f.jsonError with
          | some e => Except.error e
          | none =>
            Except.ok ((f.jsonDeps.filter (fun kv => kv.2 == "*" || kv.2 == "latest")).map
              (fun kv => kv.1 ++ " version is not pinned: " ++ kv.2))
      | none => Except.ok []
    let es ← depsGo rest
    return reqs ++ pkgs ++ es

mutual
/-- os.walk as (dirpath, files) entries, unpruned, for the tools that test
membership of fixed names in filenames. -/
def walkEntries (p : String) : Dir → List (String × List (String × PyFile))
  | .mk _ fs subs => (p, fs) :: walkEntriesList p subs
/-- Worker over a subdirectory list. -/
def walkEntriesList (p : String) : List Dir → List (String × List (String × PyFile))
  | [] => []
  | d :: rest => walkEntries (pyJoin p d.name) d ++ walkEntriesList p rest
end

/-- check_dependency_vulnerabilities from src/tools.py. -/
def check_dependency_vulnerabilities (root_dir : String) (d : Dir) :
    Except String String :=
  (depsGo (walkEntries root_dir d)).map
    (fun es => pyOr (joinNL es) "No obvious dependency issues.")

/-- Loop body sequence of the yaml and json syntax checker: everything in
the per-file body (open, decode, yaml or json parse) is inside a try that
catches Exception, appending the error as a finding, so the loop is total.
Only files with a yaml or json extension are actually read. -/
def yamlJsonGo : List (String × String × PyFile) → List String
  | [] => []
  | (dp, fname, f) :: rest =>
    (match f.openError with
     | some e => [pyJoin dp fname ++ ": " ++ e]
     | none =>
       if pyEndsWith fname ".yml" || pyEndsWith fname ".yaml" then
         match f.decodeError with
         | some e => [pyJoin dp fname ++ ": " ++ e]
         | none =>
           match f.yamlError with
           | some e => [pyJoin dp fname ++ ": " ++ e]
           | none => []
       else if pyEndsWith fname ".json" then
         match f.decodeError with
         | some e => [pyJoin dp fname ++ ": " ++ e]
         | none =>
           match f.jsonError with
           | some e => [pyJoin dp fname ++ ": " ++ e]
           | none => []
       else []) ++ yamlJsonGo rest

/-- The yaml and json syntax validator from src/tools.py (source name
check_yaml_json_syntax): unpruned walk, every per-file failure caught and
appended as a finding. -/
def checkYamlJsonSyntax (root_dir : String) (d : Dir) : String :=
  pyOr (joinNL (yamlJsonGo (walkFiles root_dir d))) "No YAML/JSON syntax errors."

/-! The main.py layer (src/main.py): cached agent construction, the
registered tool list, and the analyze endpoint fan-out/aggregation. -/

/-- A LangChain agent as src/main.py uses it: run models the blocking
agent.run network call, raising or returning the response text. -/
structure Agent where
  run : String → Except String String

/-- The error message of the RuntimeError raised by get_agent when no
backend can be constructed, byte for byte as the source spells it. -/
def noAgentMsg : String := "âŒ No valid LLM available"

/-- get_agent from src/main.py: same key guard as get_llm
(is_valid_openai_key), OpenAI first then Ollama, each initialize_agent
outcome an oracle parameter; with no usable backend it raises RuntimeError
rather than returning a degraded agent. -/
def get_agent (key url : Option String) (mkOpenAIAgent mkOllamaAgent : Except String Agent) :
    Except String Agent :=
  let viaOllama : Except String Agent :=
    if pyTruthy url then
      match mkOllamaAgent with
      | .ok a => .ok a
      | .error _ => .error noAgentMsg
    else .error noAgentMsg
  if keyUsable key then
    match mkOpenAIAgent with
    | .ok a => .ok a
    | .error _ => viaOllama
  else viaOllama

/-- The registered tool list of src/main.py (the tools constant), in
declaration order. -/
def registeredToolNames : List String :=
  ["check_build_status", "extract_error_lines", "suggest_fixes", "explain_yml",
   "check_tf_issues", "generate_pr_text", "summarize_log", "lint_python_files",
   "check_dockerfile_security", "scan_for_secrets", "check_dependency_vulnerabilities",
   "check_yaml_json_syntax", "detect_slow_tests", "extract_failed_tests",
   "detect_deprecated_warnings"]

/-- run_tool of the analyze endpoint applied to a directory tool outcome:
an exception raised by the tool is caught and rendered as an Error string. -/
def run_tool_dir (r : Except String String) : Value :=
  match r with
  | .ok s => .str s
  | .error e => .str ("Error: " ++ e)

/-- Keys of the log_tasks dictionary of analyze, in insertion order. -/
def logTaskNames : List String :=
  ["check_build_status", "extract_error_lines", "summarize_log", "explain_yml",
   "check_tf_issues", "detect_slow_tests", "extract_failed_tests",
   "detect_deprecated_warnings"]

/-- Values of the log_tasks dictionary of analyze, in the same order: the
pure log tools yield strings, the LLM-backed ones yield llm_predict dicts;
none of them raises, so run_tool passes their results through. -/
def logTaskValues (llm : Option Client) (log : String) : List Value :=
  [.str (check_build_status log), .str (extract_error_lines log),
   .dict (summarize_log llm log), .dict (explain_yml llm log),
   .dict (check_tf_issues llm log), .str (detect_slow_tests log),
   .str (extract_failed_tests log), .str (detect_deprecated_warnings log)]

/-- Keys of the dir_tasks dictionary of analyze, in insertion order. -/
def dirTaskNames : List String :=
  ["lint_python_files", "check_dockerfile_security", "scan_for_secrets",
   "check_dependency_vulnerabilities", "check_yaml_json_syntax"]

/-- Values of the dir_tasks dictionary of analyze: each directory tool runs
against PROJECT_ROOT (the dot path) through run_tool. -/
def dirTaskValues (findall : String → List String) (tree : Dir) : List Value :=
  [run_tool_dir (lint_python_files "." tree),
   run_tool_dir (check_dockerfile_security "." tree),
   .str (scan_for_secrets findall "." tree),
   run_tool_dir (check_dependency_vulnerabilities "." tree),
   .str (checkYamlJsonSyntax "." tree)]

/-- The result mapping and summary of one analyze run. -/
structure AnalysisRun where
  tool_results : List (String × Value)
  summary : List (String × Value)

/-- The body of analyze after the agent is obtained: zip the two gathered
phase result lists with their declared key order, run the two dependent
LLM steps in between, perform the synthesis call with its try/except, and
attach the elapsed-time entry.  elapsed is the externally measured
wall-clock duration already formatted to two decimals. -/
def analyzeCore (llm : Option Client) (agent : Agent) (elapsed : String)
    (logResults dirResults : List Value) : AnalysisRun :=
  let tr1 := logTaskNames.zip logResults
  let errorsVal := (tr1.lookup "extract_error_lines").getD (.str "")
  let fix_summary : Value := .dict (suggest_fixes llm (pyStr errorsVal))
  let prArg : String :=
    match fix_summary with
    | .str s => s
    | _ => ""
  let pr_text : Value := .dict (generate_pr_text llm prArg)
  let tr2 := tr1 ++ [("suggest_fixes", fix_summary), ("generate_pr_text", pr_text)]
  let tr3 := tr2 ++ dirTaskNames.zip dirResults
  let summary : List (String × Value) :=
    match agent.run
        ("Given the following tool results, provide a detailed analysis and suggest a fix:\n"
          ++ pyStr (.dict tr3)) with
    | .ok s =>
      [("content", .str s), ("response_metadata", .dict []), ("usage_metadata", .dict [])]
    | .error e => [("content", .str ("LLM summarization failed: " ++ e))]
  { tool_results := tr3 ++ [("analysis_time", .str (elapsed ++ " seconds"))],
    summary := summary }

/-- The analyze endpoint of src/main.py over the already-decoded upload
text: get_agent is called with no exception handling, so its RuntimeError
propagates to the caller; with an agent the aggregation is total.  The
asyncio.gather joins are modelled here by their contract of returning
results in input order; analyzeRunSched below models completion-order
nondeterminism explicitly. -/
def analyzeRun (key url : Option String) (mkOpenAIAgent mkOllamaAgent : Except String Agent)
    (llm : Option Client) (findall : String → List String) (tree : Dir)
    (log elapsed : String) : Except String AnalysisRun :=
  match get_agent key url mkOpenAIAgent mkOllamaAgent with
  | .error e => .error e
  | .ok agent =>
    .ok (analyzeCore llm agent elapsed (logTaskValues llm log) (dirTaskValues findall tree))

/-- One concurrent phase execution step: each completed task index writes
its result into its own slot; completion order is the order of the index
list. -/
def fillSlots (tasks : List α) : List Nat → List (Option α) → List (Option α)
  | [], acc => acc
  | i :: rest, acc => fillSlots tasks rest (acc.set i tasks[i]?)

/-- asyncio.gather modelled operationally: tasks complete in the order
given by order, each filling the slot of its own index; the gathered list
is then read out slot by slot. -/
def gatherExec (tasks : List α) (order : List Nat) : List (Option α) :=
  fillSlots tasks order (List.replicate tasks.length none)

/-- The gathered phase results under a given completion order. -/
def gatherResults (tasks : List Value) (order : List Nat) : List Value :=
  (gatherExec tasks order).map (fun o => o.getD (.str ""))

/-- analyze with the completion order of the two concurrent phases made
explicit: the log-phase tasks complete in order ordLog, the directory-phase
tasks in order ordDir. -/
def analyzeRunSched (key url : Option String)
    (mkOpenAIAgent mkOllamaAgent : Except String Agent)
    (llm : Option Client) (findall : String → List String) (tree : Dir)
    (log elapsed : String) (ordLog ordDir : List Nat) : Except String AnalysisRun :=
  match get_agent key url mkOpenAIAgent mkOllamaAgent with
  | .error e => .error e
  | .ok agent =>
    .ok (analyzeCore llm agent elapsed
      (gatherResults (logTaskValues llm log) ordLog)
      (gatherResults (dirTaskValues findall tree) ordDir))

/-- Modelled from the claim wording of C10, for comparison with the source
function: the stripped lines strictly between the first line containing the
marker and the next line that is empty after stripping, excluding the
marker line itself and any later marker line. -/
def claimFailedBlock (lines : List String) : List String :=
  match lines.dropWhile (fun l => !(pyContains "Failed tests:" l)) with
  | [] => []
  | _ :: rest =>
    ((rest.takeWhile (fun l => !(pyStrip l == ""))).filter
      (fun l => !(pyContains "Failed tests:" l))).map pyStrip

/-- The claim-side rendering of extract_failed_tests built on
claimFailedBlock. -/
def claimExtractFailedTests (log : String) : String :=
  pyOr (joinNL (claimFailedBlock (pySplitlines log))) "No failed tests found."

/-! Helper lemmas about the gather model. -/

/-- Filling slots never changes the slot count. -/
theorem fillSlots_length (tasks : List α) (order : List Nat) (acc : List (Option α)) :
    (fillSlots tasks order acc).length = acc.length := by
  induction order generalizing acc with
  | nil => rfl
  | cons i rest ih => simp [fillSlots, ih]

/-- A slot whose index never completes keeps its initial content. -/
theorem fillSlots_getElem_not_mem (tasks : List α) {order : List Nat} {j : Nat}
    (h : j ∉ order) (acc : List (Option α)) :
    (fillSlots tasks order acc)[j]? = acc[j]? := by
  induction order generalizing acc with
  | nil => rfl
  | cons i rest ih =>
    simp only [List.mem_cons, not_or] at h
    rw [fillSlots, ih h.2, List.getElem?_set_ne (fun hij => h.1 hij.symm)]

/-- A slot whose index completes at least once ends up holding the result
of exactly its own task, whatever the completion order. -/
theorem fillSlots_getElem_mem (tasks : List α) {order : List Nat} {j : Nat}
    (hmem : j ∈ order) (acc : List (Option α)) (hlen : acc.length = tasks.length)
    (hj : j < tasks.length) :
    (fillSlots tasks order acc)[j]? = some tasks[j]? := by
  induction order generalizing acc with
  | nil => cases hmem
  | cons i rest ih =>
    rw [fillSlots]
    by_cases hr : j ∈ rest
    · exact ih hr _ (by simp [hlen])
    · have hij : j = i := by
        rcases List.mem_cons.mp hmem with h | h
        · exact h
        · exact absurd h hr
      subst hij
      rw [fillSlots_getElem_not_mem tasks hr]
      exact List.getElem?_set_self (by omega)

/-- The join barrier: once every task index has completed, the gathered
slots hold exactly the tasks in their declared order. -/
theorem gatherExec_complete (tasks : List α) (order : List Nat)
    (h : ∀ j, j < tasks.length → j ∈ order) :
    gatherExec tasks order = tasks.map some := by
  apply List.ext_getElem?
  intro j
  by_cases hj : j < tasks.length
  · rw [gatherExec,
      fillSlots_getElem_mem tasks (h j hj) _ (List.length_replicate _ _) hj,
      List.getElem?_map, List.getElem?_eq_getElem hj]
    rfl
  · rw [List.getElem?_eq_none (by simpa [gatherExec, fillSlots_length] using Nat.le_of_not_lt hj),
      List.getElem?_eq_none (by simpa using Nat.le_of_not_lt hj)]

/-- Once every task completed, reading the gathered phase results gives the
task results in declared order. -/
theorem gatherResults_complete (tasks : List Value) (order : List Nat)
    (h : ∀ j, j < tasks.length → j ∈ order) :
    gatherResults tasks order = tasks := by
  rw [gatherResults, gatherExec_complete tasks order h, List.map_map]
  simp [Function.comp_def]

/-- A completed schedule reduces the scheduled analyze run to the
declared-order analyze run. -/
theorem analyzeRunSched_complete (key url : Option String)
    (mkOpenAIAgent mkOllamaAgent : Except String Agent)
    (llm : Option Client) (findall : String → List String) (tree : Dir)
    (log elapsed : String) (ordLog ordDir : List Nat)
    (hLog : ∀ j, j < 8 → j ∈ ordLog) (hDir : ∀ j, j < 5 → j ∈ ordDir) :
    analyzeRunSched key url mkOpenAIAgent mkOllamaAgent llm findall tree log elapsed
        ordLog ordDir =
      analyzeRun key url mkOpenAIAgent mkOllamaAgent llm findall tree log elapsed := by
  have e1 : gatherResults (logTaskValues llm log) ordLog = logTaskValues llm log :=
    gatherResults_complete _ _ (fun j hj => hLog j (by simpa [logTaskValues] using hj))
  have e2 : gatherResults (dirTaskValues findall tree) ordDir = dirTaskValues findall tree :=
    gatherResults_complete _ _ (fun j hj => hDir j (by simpa [dirTaskValues] using hj))
  rw [analyzeRunSched, analyzeRun, e1, e2]

/-- A stub agent whose run call returns fixed text. -/
def stubAgent : Agent := ⟨fun _ => .ok "stub"⟩

/-- A stub provider client whose invoke call returns a response with fixed
content and no metadata attributes. -/
def stubClient (t : String) : Client := ⟨fun _ => .ok ⟨some t, none, none, "obj"⟩⟩

/-- C8: within each fan-out phase the results are keyed in the declared
task order, so any two completed completion orders of the concurrent tool
invocations produce the same analyze result (mapping content and hence the
serialized synthesis prompt). -/
theorem analyze_completion_order_irrelevant (key url : Option String)
    (mkOpenAIAgent mkOllamaAgent : Except String Agent)
    (llm : Option Client) (findall : String → List String) (tree : Dir)
    (log elapsed : String) (o1 o2 o3 o4 : List Nat)
    (h1 : ∀ j, j < 8 → j ∈ o1) (h2 : ∀ j, j < 5 → j ∈ o2)
    (h3 : ∀ j, j < 8 → j ∈ o3) (h4 : ∀ j, j < 5 → j ∈ o4) :
    analyzeRunSched key url mkOpenAIAgent mkOllamaAgent llm findall tree log elapsed o1 o2 =
      analyzeRunSched key url mkOpenAIAgent mkOllamaAgent llm findall tree log elapsed o3 o4 := by
  rw [analyzeRunSched_complete key url mkOpenAIAgent mkOllamaAgent llm findall tree
      log elapsed o1 o2 h1 h2,
    analyzeRunSched_complete key url mkOpenAIAgent mkOllamaAgent llm findall tree
      log elapsed o3 o4 h3 h4]

/-- Witness for C8 at a concrete configuration: the log phase completing in
reverse order and the directory phase completing middle-out gives the same
run as in-order completion. -/
theorem analyze_completion_order_irrelevant_witness :
    analyzeRunSched (some "sk-test") none (.ok stubAgent) (.error "down") none
        (fun _ => []) (.mk "." [] []) "a log" "0.01"
        [7, 6, 5, 4, 3, 2, 1, 0] [2, 4, 0, 1, 3] =
      analyzeRunSched (some "sk-test") none (.ok stubAgent) (.error "down") none
        (fun _ => []) (.mk "." [] []) "a log" "0.01"
        [0, 1, 2, 3, 4, 5, 6, 7] [0, 1, 2, 3, 4] :=
  analyze_completion_order_irrelevant (some "sk-test") none (.ok stubAgent)
    (.error "down") none (fun _ => []) (.mk "." [] []) "a log" "0.01"
    [7, 6, 5, 4, 3, 2, 1, 0] [2, 4, 0, 1, 3] [0, 1, 2, 3, 4, 5, 6, 7] [0, 1, 2, 3, 4]
    (by decide) (by decide) (by decide) (by decide)

/-- Keys of every llm_predict result, in insertion order. -/
theorem llm_predict_keys (llm : Option Client) (prompt : String) :
    (llm_predict llm prompt).map Prod.fst =
      ["content", "response_metadata", "usage_metadata"] := by
  cases llm with
  | none => rfl
  | some c => cases h : c.invoke prompt <;> simp [llm_predict, h]

/-- C9: llm_predict always returns, without raising, a dict with exactly
the keys content, response_metadata and usage_metadata; a raising backend
call is reported as content "LLM failed: " plus the error with empty
metadata, and a missing backend as exactly "No LLM available." with empty
metadata. -/
theorem llm_predict_shape (llm : Option Client) (prompt : String) :
    (llm_predict llm prompt).map Prod.fst =
      ["content", "response_metadata", "usage_metadata"] ∧
    (∀ c e, llm = some c → c.invoke prompt = .error e →
      llm_predict llm prompt =
        [("content", .str ("LLM failed: " ++ e)), ("response_metadata", .dict []),
         ("usage_metadata", .dict [])]) ∧
    (llm = none →
      llm_predict llm prompt =
        [("content", .str "No LLM available."), ("response_metadata", .dict []),
         ("usage_metadata", .dict [])]) := by
  refine ⟨llm_predict_keys llm prompt, ?_, ?_⟩
  · rintro c e rfl he
    simp [llm_predict, he]
  · rintro rfl
    rfl

/-- Witness for C9: the no-backend case and a raising backend at concrete
inputs. -/
theorem llm_predict_shape_witness :
    llm_predict none "p" =
      [("content", .str "No LLM available."), ("response_metadata", .dict []),
       ("usage_metadata", .dict [])] ∧
    llm_predict (some ⟨fun _ => .error "boom"⟩) "p" =
      [("content", .str ("LLM failed: " ++ "boom")), ("response_metadata", .dict []),
       ("usage_metadata", .dict [])] :=
  ⟨(llm_predict_shape none "p").2.2 rfl,
   (llm_predict_shape (some ⟨fun _ => .error "boom"⟩) "p").2.1 _ "boom" rfl rfl⟩

/-- C3 counterexample: with both providers configured and both constructors
raising with messages E1 and E2, the invocation result is the fixed
"No LLM available." dict, whose content contains neither error message, so
no succeeded-false result carrying both providers' errors is produced. -/
theorem invoker_error_detail_counterexample :
    List.lookup "content"
        (llm_predict
          (get_llm (some "sk-test") (some "http://localhost:11434")
            (.error "E1") (.error "E2")) "prompt") =
      some (.str "No LLM available.") ∧
    pyContains "E1" "No LLM available." = false ∧
    pyContains "E2" "No LLM available." = false :=
  ⟨rfl, by decide, by decide⟩

/-- C3 amended: provider fallback happens once, at client construction:
get_llm tries the hosted constructor first when the key is usable, falls
back to the local constructor when the hosted one raises or the key is not
usable, and yields none when every configured constructor raises — after
which every llm_predict call reports the fixed "No LLM available." dict
that carries no provider error detail. -/
theorem invoker_construction_fallback (key url : Option String) (c : Client)
    (e1 e2 prompt : String) :
    (keyUsable key = true → ∀ mkOllama, get_llm key url (.ok c) mkOllama = some c) ∧
    (keyUsable key = true → pyTruthy url = true →
      get_llm key url (.error e1) (.ok c) = some c) ∧
    (keyUsable key = false → pyTruthy url = true →
      ∀ mkOpenAI, get_llm key url mkOpenAI (.ok c) = some c) ∧
    get_llm key url (.error e1) (.error e2) = none ∧
    llm_predict (get_llm key url (.error e1) (.error e2)) prompt =
      [("content", .str "No LLM available."), ("response_metadata", .dict []),
       ("usage_metadata", .dict [])] := by
  have hnone : get_llm key url (.error e1) (.error e2) = none := by
    by_cases hk : keyUsable key <;> by_cases hu : pyTruthy url <;>
      simp [get_llm, hk, hu]
  refine ⟨?_, ?_, ?_, hnone, ?_⟩
  · intro hk mkOllama
    simp [get_llm, hk]
  · intro hk hu
    simp [get_llm, hk, hu]
  · intro hk hu mkOpenAI
    simp [get_llm, hk, hu]
  · rw [hnone]
    rfl

/-- Witness for C3 amended at concrete configurations. -/
theorem invoker_construction_fallback_witness :
    get_llm (some "sk-test") none (.ok (stubClient "hi")) (.error "e2") =
      some (stubClient "hi") ∧
    get_llm (some "sk-test") (some "http://x") (.error "e1") (.ok (stubClient "hi")) =
      some (stubClient "hi") ∧
    get_llm none (some "http://x") (.error "e1") (.ok (stubClient "hi")) =
      some (stubClient "hi") ∧
    get_llm (some "sk-test") (some "http://x") (.error "e1") (.error "e2") = none :=
  ⟨(invoker_construction_fallback (some "sk-test") none (stubClient "hi") "e1" "e2" "p").1
      (by decide) _,
   (invoker_construction_fallback (some "sk-test") (some "http://x") (stubClient "hi")
      "e1" "e2" "p").2.1 (by decide) (by decide),
   (invoker_construction_fallback none (some "http://x") (stubClient "hi")
      "e1" "e2" "p").2.2.1 (by decide) (by decide) _,
   (invoker_construction_fallback (some "sk-test") (some "http://x") (stubClient "hi")
      "e1" "e2" "p").2.2.2.1⟩

/-- C1 counterexample: with neither backend configured the analyze endpoint
does not report "no backend available" as plain text in the summary: the
unguarded get_agent call raises RuntimeError and that error crosses the
boundary to the caller, aborting the run. -/
theorem analyze_no_backend_raises_counterexample :
    analyzeRun none none (.error "ctor not reached") (.error "ctor not reached") none
        (fun _ => []) (.mk "." [] []) "some log" "0.00" =
      .error noAgentMsg := rfl

/-- C1 amended: whenever get_agent yields an agent, the analyze aggregation
returns a complete result for every combination of per-tool and synthesis
failures — every such failure is captured as text inside the run and
nothing is raised; but when no backend is configured, get_agent raises
RuntimeError and analyze propagates that error to its caller instead of
reporting it as text in the summary. -/
theorem analyze_total_given_agent (key url : Option String)
    (mkOpenAIAgent mkOllamaAgent : Except String Agent)
    (llm : Option Client) (findall : String → List String) (tree : Dir)
    (log elapsed : String) :
    (∀ a, get_agent key url mkOpenAIAgent mkOllamaAgent = .ok a →
      analyzeRun key url mkOpenAIAgent mkOllamaAgent llm findall tree log elapsed =
        .ok (analyzeCore llm a elapsed (logTaskValues llm log)
          (dirTaskValues findall tree))) ∧
    (keyUsable key = false → pyTruthy url = false →
      analyzeRun key url mkOpenAIAgent mkOllamaAgent llm findall tree log elapsed =
        .error noAgentMsg) := by
  constructor
  · intro a ha
    rw [analyzeRun, ha]
  · intro hk hu
    rw [analyzeRun, get_agent.eq_def]
    simp [hk, hu]

/-- Witness for C1 amended: a configured stub agent gives a completed run;
the unconfigured case raises. -/
theorem analyze_total_given_agent_witness :
    analyzeRun (some "sk-test") none (.ok stubAgent) (.error "down") none
        (fun _ => []) (.mk "." [] []) "log" "0.00" =
      .ok (analyzeCore none stubAgent "0.00" (logTaskValues none "log")
        (dirTaskValues (fun _ => []) (.mk "." [] []))) ∧
    analyzeRun none none (.error "e") (.error "e") none
        (fun _ => []) (.mk "." [] []) "log" "0.00" = .error noAgentMsg :=
  ⟨(analyze_total_given_agent (some "sk-test") none (.ok stubAgent) (.error "down")
      none (fun _ => []) (.mk "." [] []) "log" "0.00").1 stubAgent rfl,
   (analyze_total_given_agent none none (.error "e") (.error "e")
      none (fun _ => []) (.mk "." [] []) "log" "0.00").2 (by decide) (by decide)⟩

/-- C2: every analyze run that completes carries exactly one tool_results
entry for each registered tool name — none missing, none duplicated — even
when individual tools fail, and its summary always carries a populated
content entry, also when the synthesis call fails. -/
theorem analyze_run_completeness (key url : Option String)
    (mkOpenAIAgent mkOllamaAgent : Except String Agent)
    (llm : Option Client) (findall : String → List String) (tree : Dir)
    (log elapsed : String) (r : AnalysisRun)
    (h : analyzeRun key url mkOpenAIAgent mkOllamaAgent llm findall tree log elapsed =
      .ok r) :
    (∀ n ∈ registeredToolNames, (r.tool_results.map Prod.fst).count n = 1) ∧
    (∃ s, r.summary.lookup "content" = some (Value.str s)) := by
  rw [analyzeRun] at h
  cases hg : get_agent key url mkOpenAIAgent mkOllamaAgent with
  | error e => rw [hg] at h; cases h
  | ok a =>
    rw [hg] at h
    injection h with h
    subst h
    constructor
    · have hk : ((analyzeCore llm a elapsed (logTaskValues llm log)
          (dirTaskValues findall tree)).tool_results).map Prod.fst =
          ["check_build_status", "extract_error_lines", "summarize_log", "explain_yml",
           "check_tf_issues", "detect_slow_tests", "extract_failed_tests",
           "detect_deprecated_warnings", "suggest_fixes", "generate_pr_text",
           "lint_python_files", "check_dockerfile_security", "scan_for_secrets",
           "check_dependency_vulnerabilities", "check_yaml_json_syntax",
           "analysis_time"] := by
        simp [analyzeCore, logTaskNames, dirTaskNames, logTaskValues, dirTaskValues]
      rw [hk]
      decide
    · simp only [analyzeCore]
      cases hrun : a.run
          ("Given the following tool results, provide a detailed analysis and suggest a fix:\n"
            ++ pyStr (.dict
              ((logTaskNames.zip (logTaskValues llm log) ++
                [("suggest_fixes", .dict (suggest_fixes llm (pyStr (((logTaskNames.zip
                    (logTaskValues llm log)).lookup "extract_error_lines").getD (.str ""))))),
                 ("generate_pr_text", .dict (generate_pr_text llm ""))]) ++
                dirTaskNames.zip (dirTaskValues findall tree)))) with
      | ok s => exact ⟨s, by simp [hrun, List.lookup]⟩
      | error e => exact ⟨"LLM summarization failed: " ++ e, by simp [hrun, List.lookup]⟩

/-- Witness for C2 at a concrete completed run. -/
theorem analyze_run_completeness_witness :
    (∀ n ∈ registeredToolNames,
      (((analyzeCore none stubAgent "0.00" (logTaskValues none "log")
        (dirTaskValues (fun _ => []) (.mk "." [] []))).tool_results).map Prod.fst).count n
        = 1) ∧
    (∃ s, (analyzeCore none stubAgent "0.00" (logTaskValues none "log")
      (dirTaskValues (fun _ => []) (.mk "." [] []))).summary.lookup "content" =
        some (Value.str s)) :=
  analyze_run_completeness (some "sk-test") none (.ok stubAgent) (.error "down") none
    (fun _ => []) (.mk "." [] []) "log" "0.00" _ rfl

/-- The end-to-end scenario log of the spec: one line and no other
markers. -/
def c7Log : String := "BUILD FAILURE: NullPointerException at Foo.java:10"

/-- C7: on the scenario log the build-status entry is exactly
"Build failed.", the error-extraction entry is exactly that line (so it
contains it verbatim), and the suggest-fix entry — wired from the
error-extraction output — is the llm_predict wrap of the stub provider's
fixed text T, whose content equals T. -/
theorem analyze_end_to_end_scenario (T : String) :
    ∃ r, analyzeRun (some "sk-test") none (.ok stubAgent) (.error "down")
        (some (stubClient T)) (fun _ => []) (.mk "." [] []) c7Log "0.00" = .ok r ∧
      r.tool_results.lookup "check_build_status" = some (.str "Build failed.") ∧
      r.tool_results.lookup "extract_error_lines" = some (.str c7Log) ∧
      (∃ es, r.tool_results.lookup "suggest_fixes" = some (.dict es) ∧
        es.lookup "content" = some (.str T)) :=
  ⟨_, rfl, rfl, rfl, _, rfl, rfl⟩

/-- The string-or fallback never yields the empty string when the fallback
is nonempty. -/
theorem pyOr_ne_empty (x : String) {y : String} (hy : y ≠ "") : pyOr x y ≠ "" := by
  unfold pyOr
  split
  · exact hy
  · assumption

/-- C5 counterexample: the summary tool's phase entry is not a string at
all — here, on the empty log with no backend, it is the three-key
llm_predict dictionary — refuting that every log-text tool yields a
non-empty string. -/
theorem summarize_log_not_string_counterexample :
    ∃ v, (logTaskNames.zip (logTaskValues none "")).lookup "summarize_log" = some v ∧
      Value.isStr v = false ∧
      v = .dict [("content", .str "No LLM available."), ("response_metadata", .dict []),
        ("usage_metadata", .dict [])] :=
  ⟨_, rfl, rfl, rfl⟩

/-- C5 amended: the five pure log-text tools are total and never return the
empty string for any input — absence of matches yields their sentinel
strings; the summary tool is total as well but returns the llm_predict
dictionary with its three fixed keys, not a string. -/
theorem log_tools_total_nonempty (llm : Option Client) (log : String) :
    check_build_status log ≠ "" ∧ extract_error_lines log ≠ "" ∧
    detect_slow_tests log ≠ "" ∧ extract_failed_tests log ≠ "" ∧
    detect_deprecated_warnings log ≠ "" ∧
    (summarize_log llm log).map Prod.fst =
      ["content", "response_metadata", "usage_metadata"] := by
  refine ⟨?_, ?_, ?_, ?_, ?_, llm_predict_keys llm _⟩
  · unfold check_build_status
    split <;> decide
  · unfold extract_error_lines
    exact pyOr_ne_empty _ (by decide)
  · unfold detect_slow_tests
    exact pyOr_ne_empty _ (by decide)
  · unfold extract_failed_tests
    exact pyOr_ne_empty _ (by decide)
  · unfold detect_deprecated_warnings
    exact pyOr_ne_empty _ (by decide)

/-- A python file whose bytes are not valid utf-8: strict decoding raises. -/
def badUtf8File : PyFile :=
  ⟨none, some "UnicodeDecodeError: invalid start byte", "", none, none, none, []⟩

/-- A file that cannot even be opened. -/
def unreadableFile : PyFile :=
  ⟨some "PermissionError: denied", none, "", none, none, none, []⟩

/-- C4 counterexample: a directory with a single python file holding
invalid utf-8 bytes makes lint_python_files raise — only SyntaxError is
caught, so this per-file read error escalates out of the directory-scan
tool instead of being appended as a finding. -/
theorem lint_raises_on_decode_error_counterexample :
    lint_python_files "." (.mk "." [("bad.py", badUtf8File)] []) =
      .error "UnicodeDecodeError: invalid start byte" := rfl

/-- C4 amended: scan_for_secrets and the yaml/json checker catch every
per-file failure, append it as a descriptive finding line and continue with
the remaining files; lint_python_files however catches only SyntaxError, so
a per-file read error such as invalid utf-8 raises out of it (and the
Dockerfile and dependency checkers catch nothing per file). -/
theorem dir_scan_per_file_errors (findall : String → List String)
    (dp fname e : String) (f : PyFile) (rest : List (String × String × PyFile)) :
    (secretExts.any (fun x => pyEndsWith fname x) = true → f.openError = some e →
      secretsGo findall ((dp, fname, f) :: rest) =
        (pyJoin dp fname ++ ": Error reading file - " ++ e) ::
          secretsGo findall rest) ∧
    (f.openError = some e →
      yamlJsonGo ((dp, fname, f) :: rest) =
        (pyJoin dp fname ++ ": " ++ e) :: yamlJsonGo rest) ∧
    (pyEndsWith fname ".py" = true → f.readStrict = .error e →
      lintGo ((dp, fname, f) :: rest) = .error e) := by
  refine ⟨fun hx ho => ?_, fun ho => ?_, fun hx hr => ?_⟩
  · simp [secretsGo, hx, ho, PyFile.readIgnore]
  · simp [yamlJsonGo, ho]
  · simp [lintGo, hx, hr]

/-- Witness for C4 amended: an unreadable file is reported and the scans
continue; the invalid-utf-8 python file makes the lint loop raise. -/
theorem dir_scan_per_file_errors_witness :
    secretsGo (fun _ => []) [(".", "a.py", unreadableFile)] =
      (pyJoin "." "a.py" ++ ": Error reading file - " ++ "PermissionError: denied") ::
        secretsGo (fun _ => []) [] ∧
    yamlJsonGo [(".", "a.py", unreadableFile)] =
      (pyJoin "." "a.py" ++ ": " ++ "PermissionError: denied") :: yamlJsonGo [] ∧
    lintGo [(".", "bad.py", badUtf8File)] =
      .error "UnicodeDecodeError: invalid start byte" :=
  ⟨(dir_scan_per_file_errors (fun _ => []) "." "a.py" "PermissionError: denied"
      unreadableFile []).1 (by decide) rfl,
   (dir_scan_per_file_errors (fun _ => []) "." "a.py" "PermissionError: denied"
      unreadableFile []).2.1 rfl,
   (dir_scan_per_file_errors (fun _ => []) "." "bad.py"
      "UnicodeDecodeError: invalid start byte" badUtf8File []).2.2 (by decide) rfl⟩

/-- Pruning never changes a directory's own name. -/
theorem pruneExcluded_name (d : Dir) : (pruneExcluded d).name = d.name := by
  cases d
  rfl

mutual
/-- The pruned walk sees exactly the tree with every excluded subtree
deleted: no file under an excluded directory is ever visited. -/
theorem walkFilesPruned_pruneExcluded : (p : String) → (d : Dir) →
    walkFilesPruned p (pruneExcluded d) = walkFilesPruned p d
  | p, .mk n fs subs => by
    rw [pruneExcluded, walkFilesPruned, walkFilesPruned,
      walkFilesPrunedList_pruneList p subs]
/-- Worker lemma over subdirectory lists. -/
theorem walkFilesPrunedList_pruneList : (p : String) → (l : List Dir) →
    walkFilesPrunedList p (pruneExcludedList l) = walkFilesPrunedList p l
  | _, [] => rfl
  | p, d :: rest => by
    rw [pruneExcludedList]
    by_cases h : EXCLUDED_DIRS.contains d.name
    · rw [if_pos h, List.nil_append, walkFilesPrunedList_pruneList p rest,
        walkFilesPrunedList, if_pos h, List.nil_append]
    · rw [if_neg h, List.singleton_append, walkFilesPrunedList, pruneExcluded_name,
        if_neg h, walkFilesPruned_pruneExcluded (pyJoin p d.name) d,
        walkFilesPrunedList_pruneList p rest, walkFilesPrunedList, if_neg h]
end

/-- C6 amended: scan_for_secrets (with run_static_analysis, the only tools
that prune dirnames) never takes a finding from under an excluded
directory: its output on any tree equals its output on the tree with every
excluded subtree deleted.  The other directory-scan tools do descend into
excluded directories, as the counterexample shows for the python linter. -/
theorem scan_for_secrets_skips_excluded (findall : String → List String)
    (root : String) (d : Dir) :
    scan_for_secrets findall root d = scan_for_secrets findall root (pruneExcluded d) := by
  rw [scan_for_secrets, scan_for_secrets, walkFilesPruned_pruneExcluded]

/-- A python file whose content fails to parse. -/
def badPyFile : PyFile := ⟨none, none, "def f(:", some "invalid syntax", none, none, []⟩

/-- C6 counterexample: lint_python_files does not prune dirnames, so a
python file inside a venv directory does contribute a finding to its
output. -/
theorem excluded_dir_finding_counterexample :
    lint_python_files "." (.mk "." [] [.mk "venv" [("bad.py", badPyFile)] []]) =
      .ok "bad.py: invalid syntax" := rfl

/-- A successful prefix match draws all its characters from the target. -/
theorem startsWithL_subset {pat xs : List Char} (h : startsWithL pat xs = true) :
    ∀ c ∈ pat, c ∈ xs := by
  induction pat generalizing xs with
  | nil => intro c hc; cases hc
  | cons p ps ih =>
    cases xs with
    | nil => cases h
    | cons x xr =>
      rw [startsWithL, Bool.and_eq_true, beq_iff_eq] at h
      intro c hc
      rcases List.mem_cons.mp hc with hc | hc
      · subst hc; rw [h.1]; exact List.mem_cons_self _ _
      · exact List.mem_cons_of_mem _ (ih h.2 c hc)

/-- A successful substring match draws all pattern characters from the
target. -/
theorem hasSubL_subset {pat xs : List Char} (h : hasSubL pat xs = true) :
    ∀ c ∈ pat, c ∈ xs := by
  induction xs with
  | nil =>
    rw [hasSubL] at h
    exact startsWithL_subset h
  | cons x xr ih =>
    rw [hasSubL, Bool.or_eq_true] at h
    rcases h with h | h
    · exact startsWithL_subset h
    · intro c hc
      exact List.mem_cons_of_mem _ (ih h c hc)

/-- An empty strip result means every character was whitespace. -/
theorem stripL_eq_nil {xs : List Char} (h : stripL xs = []) :
    ∀ c ∈ xs, isPySpace c = true := by
  rw [stripL, List.reverse_eq_nil_iff, List.dropWhile_eq_nil_iff] at h
  intro c hc
  have hx : c ∈ List.takeWhile isPySpace xs ++ List.dropWhile isPySpace xs := by
    rw [List.takeWhile_append_dropWhile]
    exact hc
  rcases List.mem_append.mp hx with hc2 | hc2
  · exact List.mem_takeWhile_imp hc2
  · exact h c (List.mem_reverse.mpr hc2)

/-- A line containing the failed-tests marker does not strip to the empty
string. -/
theorem marker_strip_ne (l : String) (h : pyContains "Failed tests:" l = true) :
    (pyStrip l == "") = false := by
  rw [beq_eq_false_iff_ne]
  intro he
  have hnil : stripL l.data = [] := by
    have h2 := congrArg String.data he
    simpa [pyStrip] using h2
  have hmem : 'F' ∈ l.data := hasSubL_subset h 'F' (by decide)
  have hsp := stripL_eq_nil hnil 'F' hmem
  exact absurd hsp (by decide)

/-- Once capturing, the loop keeps exactly the stripped non-marker lines up
to the first empty-after-strip line. -/
theorem collectFailed_true (lines : List String) :
    collectFailed true lines =
      ((lines.takeWhile (fun l => !(pyStrip l == ""))).filter
        (fun l => !(pyContains "Failed tests:" l))).map pyStrip := by
  induction lines with
  | nil => rfl
  | cons l rest ih =>
    by_cases hm : pyContains "Failed tests:" l = true
    · have hs := marker_strip_ne l hm
      simp [collectFailed, hm, hs, List.takeWhile_cons, List.filter_cons, ih]
    · by_cases he : (pyStrip l == "") = true
      · simp [collectFailed, hm, he, List.takeWhile_cons]
      · simp [collectFailed, hm, he, List.takeWhile_cons, List.filter_cons, ih]

/-- Before the first marker the loop only scans; from the first marker on it
captures, which is exactly the claim-side description. -/
theorem collectFailed_false (lines : List String) :
    collectFailed false lines = claimFailedBlock lines := by
  induction lines with
  | nil => rfl
  | cons l rest ih =>
    by_cases hm : pyContains "Failed tests:" l = true
    · simp [collectFailed, hm, claimFailedBlock, List.dropWhile_cons, collectFailed_true]
    · have h1 : collectFailed false (l :: rest) = collectFailed false rest := by
        simp [collectFailed, hm]
      have h2 : claimFailedBlock (l :: rest) = claimFailedBlock rest := by
        simp [claimFailedBlock, List.dropWhile_cons, hm]
      rw [h1, h2, ih]

/-- C10: extract_failed_tests computes exactly the claim description: the
newline-join of the stripped lines strictly between the first marker line
and the next empty-after-strip line, excluding the marker line itself and
any later marker line, with the fixed sentinel when that collection is
empty (including when no marker exists). -/
theorem extract_failed_tests_matches_claim (log : String) :
    extract_failed_tests log = claimExtractFailedTests log := by
  rw [extract_failed_tests, claimExtractFailedTests, collectFailed_false]
